import Mathlib

/-!
Verification of the UptimeFlare AWS aggregator and query layer.

This file gives a shallow embedding of the aggregator Lambda
(`aggregateResults`, `updateMonitorState`, `updateIncident`,
`getRecentCheckResults`, `getBaselineLatency`, and the per-monitor
notification logic of `handler`) and of the `/api/data` and `/api/badge`
projections of the API Lambda, and proves or refutes the specified
properties about them.

JavaScript truthiness on numbers (`x || d`, `!x`) is modelled by the
`jsOr` / `jsFalsy` helpers: `0`, `null`/`undefined` (here `Option.none`)
and the empty string are falsy; every other value is truthy.
-/

namespace UptimeFlare

/-- JS truthiness test for an optional number: `undefined`/`null` and `0` are falsy. -/
def jsFalsy : Option Nat → Bool
  | none => true
  | some n => n == 0

/-- JS `x || d` for an optional number: falls back to `d` when `x` is falsy. -/
def jsOr (o : Option Nat) (d : Nat) : Nat :=
  match o with
  | none => d
  | some n => if n == 0 then d else n

/-- JS `x || d` for an optional string: falls back to `d` when `x` is absent or empty. -/
def jsOrStr (o : Option String) (d : String) : String :=
  match o with
  | none => d
  | some s => if s == "" then d else s

/-- Per-region check outcome (field `status` of a `CheckResultItem`). -/
inductive RStatus where
  | up
  | down
deriving DecidableEq, Repr

/-- Aggregated monitor status (field `status` of a `MonitorStateItem`). -/
inductive MStatus where
  | up
  | down
  | degraded
deriving DecidableEq, Repr

/-- `TimingMetrics` from `types/config`: per-phase timings in milliseconds. -/
structure TimingMetrics where
  dnsLookup : Nat
  tcpConnect : Nat
  tlsHandshake : Nat
  ttfb : Nat
  contentDownload : Nat
  total : Nat
deriving DecidableEq, Repr

/-- The all-zero `emptyTiming` default used by `aggregateResults`. -/
def emptyTiming : TimingMetrics := ⟨0, 0, 0, 0, 0, 0⟩

/-- A `CHECK#<id>` record as read by the aggregator (`CheckResultItem`). -/
structure CheckResultItem where
  region : String
  status : RStatus
  latency : Nat
  timing : Option TimingMetrics
  error : Option String
  timestamp : Nat
deriving DecidableEq, Repr

/-- Spike-detection configuration (`alerting.spikeDetection`). -/
structure SpikeDetection where
  enabled : Bool
  thresholdPercent : ℚ
  baselineWindowMinutes : Nat
deriving DecidableEq, Repr

/-- Alerting configuration of a monitor (`MonitorTarget.alerting`). -/
structure AlertingConfig where
  downGracePeriod : Option Nat := none
  downVoteThreshold : Option Nat := none
  slowGracePeriod : Option Nat := none
  spikeDetection : Option SpikeDetection := none
deriving DecidableEq, Repr

/-- The part of `MonitorTarget` the aggregator reads. -/
structure Monitor where
  id : String
  regions : List String
  primaryRegion : String
  latencyThreshold : Option Nat := none
  alerting : Option AlertingConfig := none
deriving DecidableEq, Repr

/-- The part of `NOTIFICATION_CONFIG` the aggregator reads. -/
structure NotifConfig where
  gracePeriod : Option Nat := none
  skipNotificationIds : List String := []
deriving DecidableEq, Repr

/-- One entry of the `regionStatuses` object built by `aggregateResults`. -/
structure RegionEntry where
  status : RStatus
  latency : Nat
  timing : TimingMetrics
  error : Option String
deriving DecidableEq, Repr

/-- Assignment `obj[k] = v` on a JS object modelled as an insertion-ordered
association list: an existing key keeps its position, a new key is appended. -/
def objSet (l : List (String × RegionEntry)) (k : String) (v : RegionEntry) :
    List (String × RegionEntry) :=
  if l.any (fun p => p.1 == k) then
    l.map (fun p => if p.1 == k then (k, v) else p)
  else l ++ [(k, v)]

/-- The `regionStatuses` object of `aggregateResults`: one entry per region,
later check results overwriting earlier ones for the same region. -/
def buildRegionStatuses (results : List CheckResultItem) : List (String × RegionEntry) :=
  results.foldl
    (fun acc r => objSet acc r.region ⟨r.status, r.latency, r.timing.getD emptyTiming, r.error⟩)
    []

/-- `monitor.alerting?.downVoteThreshold` (optional chaining). -/
def dvtOf (m : Monitor) : Option Nat := m.alerting.bind (·.downVoteThreshold)

/-- The vote threshold computed by `aggregateResults`:
`monitor.alerting?.downVoteThreshold || Math.ceil(totalRegions / 2)`.
`Math.ceil(n / 2) = (n + 1) / 2` in natural division. -/
def voteThreshold (m : Monitor) : Nat :=
  jsOr (dvtOf m) ((m.regions.length + 1) / 2)

/-- The result record returned by `aggregateResults`. -/
structure AggregatedResult where
  monitorId : String
  status : MStatus
  primaryRegion : String
  primaryLatency : Nat
  primaryTiming : TimingMetrics
  regionStatuses : List (String × RegionEntry)
  regionsUp : Nat
  regionsDown : Nat
  majorityStatus : RStatus
  error : Option String
deriving DecidableEq, Repr

/-- `aggregateResults` from the aggregator Lambda: builds `regionStatuses`,
counts up/down regions, applies the vote threshold, and derives the overall
status together with the primary-region latency/timing and the error string. -/
def aggregateResults (m : Monitor) (checkResults : List CheckResultItem) : AggregatedResult :=
  let regionStatuses := buildRegionStatuses checkResults
  let regionsUp := (regionStatuses.filter (fun p => p.2.status == RStatus.up)).length
  let regionsDown := (regionStatuses.filter (fun p => p.2.status == RStatus.down)).length
  let thr := voteThreshold m
  let majorityStatus := if thr ≤ regionsDown then RStatus.down else RStatus.up
  let primaryStatus := (regionStatuses.find? (fun p => p.1 == m.primaryRegion)).map (·.2)
  let primaryLatency := (primaryStatus.map (·.latency)).getD 0
  let primaryTiming := (primaryStatus.map (·.timing)).getD emptyTiming
  let status :=
    if majorityStatus = RStatus.down then MStatus.down
    else if 0 < regionsDown then MStatus.degraded
    else MStatus.up
  let error :=
    if status ≠ MStatus.up then
      some (String.intercalate "; "
        ((regionStatuses.filter (fun p => p.2.status == RStatus.down)).map
          (fun p => p.1 ++ ": " ++ jsOrStr p.2.error "unknown")))
    else none
  { monitorId := m.id
    status := status
    primaryRegion := m.primaryRegion
    primaryLatency := primaryLatency
    primaryTiming := primaryTiming
    regionStatuses := regionStatuses
    regionsUp := regionsUp
    regionsDown := regionsDown
    majorityStatus := majorityStatus
    error := error }

/-- A `STATE#<id>/CURRENT` record (`MonitorStateItem`). -/
structure MonitorStateRec where
  status : MStatus
  primaryLatency : Nat
  primaryTiming : TimingMetrics
  regionStatuses : List (String × RStatus × Nat)
  lastCheck : Nat
  downSince : Option Nat
  slowSince : Option Nat
  lastNotifiedDown : Option Nat
  lastNotifiedSlow : Option Nat
deriving DecidableEq, Repr

/-- `updateMonitorState` from the aggregator Lambda: derives `downSince` and
`slowSince` from the previous state and the aggregated result, copies the
`lastNotified*` fields unchanged, and reports whether the status changed. -/
def updateMonitorState (m : Monitor) (agg : AggregatedResult)
    (prev : Option MonitorStateRec) (T : Nat) : Bool × MonitorStateRec :=
  -- `previousState?.status || 'up'` (status strings are always truthy)
  let previousStatus := (prev.map (·.status)).getD MStatus.up
  let stateChanged := previousStatus ≠ agg.status
  let downSince :=
    if agg.status = MStatus.down ∧ previousStatus ≠ MStatus.down then some T
    else if agg.status ≠ MStatus.down then none
    else prev.bind (·.downSince)
  let slowSince0 := prev.bind (·.slowSince)
  -- `if (threshold && aggregated.primaryLatency > threshold) { if (!slowSince) ... } else ...`
  let slowSince :=
    if ¬ jsFalsy m.latencyThreshold = true ∧ jsOr m.latencyThreshold 0 < agg.primaryLatency then
      if jsFalsy slowSince0 then some T else slowSince0
    else none
  (stateChanged,
    { status := agg.status
      primaryLatency := agg.primaryLatency
      primaryTiming := agg.primaryTiming
      regionStatuses := agg.regionStatuses.map (fun p => (p.1, p.2.status, p.2.latency))
      lastCheck := T
      downSince := downSince
      slowSince := slowSince
      lastNotifiedDown := prev.bind (·.lastNotifiedDown)
      lastNotifiedSlow := prev.bind (·.lastNotifiedSlow) })

/-- Grace period for down notifications:
`(notificationConfig.gracePeriod || 0) * 60 * 1000`. -/
def downGraceMs (cfg : NotifConfig) : Nat := jsOr cfg.gracePeriod 0 * 60000

/-- Grace period for slow notifications:
`(monitor.alerting?.slowGracePeriod || 3) * 60 * 1000`. -/
def slowGraceMs (m : Monitor) : Nat := jsOr (m.alerting.bind (·.slowGracePeriod)) 3 * 60000

/-- The aggregated result computed for a monitor at one handler tick. -/
def tickAgg (m : Monitor) (results : List CheckResultItem) : AggregatedResult :=
  aggregateResults m results

/-- The `stateChanged` flag of `updateMonitorState` at one handler tick. -/
def tickChanged (m : Monitor) (results : List CheckResultItem)
    (prev : Option MonitorStateRec) (T : Nat) : Bool :=
  (updateMonitorState m (tickAgg m results) prev T).1

/-- The `newState` written by `updateMonitorState` at one handler tick
(before the `lastNotified*` update commands). -/
def tickNewState (m : Monitor) (results : List CheckResultItem)
    (prev : Option MonitorStateRec) (T : Nat) : MonitorStateRec :=
  (updateMonitorState m (tickAgg m results) prev T).2

/-- Whether the handler sends a DOWN notification at this tick: it requires
`stateChanged`, the monitor not being on the skip list, status `down`, the
grace period elapsed since `downSince`, and
`!lastNotifiedDown || lastNotifiedDown < (downSince || 0)`. -/
def downFires (m : Monitor) (cfg : NotifConfig) (results : List CheckResultItem)
    (prev : Option MonitorStateRec) (T : Nat) : Bool :=
  let ns := tickNewState m results prev T
  tickChanged m results prev T
    && !(cfg.skipNotificationIds.contains m.id)
    && decide ((tickAgg m results).status = MStatus.down)
    && decide (downGraceMs cfg ≤ T - jsOr ns.downSince T)
    && (match ns.lastNotifiedDown with
        | none => true
        | some n => n == 0 || decide (n < jsOr ns.downSince 0))

/-- Whether the handler sends an UP-after-down notification at this tick:
`stateChanged`, not skipped, status now `up`, previous status `down`, and
`previousState.lastNotifiedDown` truthy. -/
def upFires (m : Monitor) (cfg : NotifConfig) (results : List CheckResultItem)
    (prev : Option MonitorStateRec) (T : Nat) : Bool :=
  tickChanged m results prev T
    && !(cfg.skipNotificationIds.contains m.id)
    && decide ((tickAgg m results).status = MStatus.up)
    && decide (prev.map (·.status) = some MStatus.down)
    && !(jsFalsy (prev.bind (·.lastNotifiedDown)))

/-- Guard of the latency-threshold block: `monitor.latencyThreshold` truthy. -/
def slowActive (m : Monitor) : Bool := !(jsFalsy m.latencyThreshold)

/-- `isSlowNow`: the aggregated primary latency exceeds the threshold. -/
def isSlowNow (m : Monitor) (results : List CheckResultItem) : Bool :=
  decide (jsOr m.latencyThreshold 0 < (tickAgg m results).primaryLatency)

/-- `wasSlowBefore`: `previousState?.slowSince !== undefined`. -/
def wasSlowBefore (prev : Option MonitorStateRec) : Bool :=
  (prev.bind (·.slowSince)).isSome

/-- Whether the handler sends a SLOW notification at this tick: still slow,
grace period elapsed since `slowSince`, and `!previousState?.lastNotifiedSlow`. -/
def slowFires (m : Monitor) (results : List CheckResultItem)
    (prev : Option MonitorStateRec) (T : Nat) : Bool :=
  slowActive m && isSlowNow m results && wasSlowBefore prev
    && decide (slowGraceMs m ≤ T - jsOr (tickNewState m results prev T).slowSince T)
    && jsFalsy (prev.bind (·.lastNotifiedSlow))

/-- Whether the handler sends a FAST-again notification at this tick: no
longer slow, was slow before, and `previousState?.lastNotifiedSlow` truthy. -/
def fastFires (m : Monitor) (results : List CheckResultItem)
    (prev : Option MonitorStateRec) : Bool :=
  slowActive m && !(isSlowNow m results) && wasSlowBefore prev
    && !(jsFalsy (prev.bind (·.lastNotifiedSlow)))

/-- Insert into an ascending list (used to model `Array.prototype.sort`). -/
def insertAsc (x : Nat) : List Nat → List Nat
  | [] => [x]
  | y :: ys => if x ≤ y then x :: y :: ys else y :: insertAsc x ys

/-- Ascending sort, modelling `latencies.sort((a, b) => a - b)`. -/
def sortAsc (l : List Nat) : List Nat := l.foldr insertAsc []

/-- `getBaselineLatency` from the aggregator Lambda: the latency items under
`LATENCY#<id>#<region>` with sort key strictly after `T − windowMinutes·60000`
are collected; when more than 5 exist, the median of their latencies is
returned (average of the two middle values for an even count), else `null`. -/
def getBaselineLatency (items : List (Nat × Nat)) (T : Nat) (windowMinutes : Nat) :
    Option ℚ :=
  let cutoff := T - windowMinutes * 60000
  let latencies := (items.filter (fun p => decide (cutoff < p.1))).map (·.2)
  if 5 < latencies.length then
    let sorted := sortAsc latencies
    let mid := sorted.length / 2
    if sorted.length % 2 = 1 then some ((sorted.getD mid 0 : Nat) : ℚ)
    else some ((((sorted.getD (mid - 1) 0 : Nat) : ℚ) + ((sorted.getD mid 0 : Nat) : ℚ)) / 2)
  else none

/-- Whether the handler pushes a SPIKE notification at this tick: spike
detection enabled, and `baseline && primaryLatency > baseline * (1 + pct/100)`
(a `0` baseline is falsy and short-circuits). No grace period is involved. -/
def spikeAt (m : Monitor) (latItems : List (Nat × Nat))
    (results : List CheckResultItem) (T : Nat) : Bool :=
  match m.alerting.bind (·.spikeDetection) with
  | none => false
  | some sd =>
    sd.enabled &&
      match getBaselineLatency latItems T sd.baselineWindowMinutes with
      | none => false
      | some b =>
        decide (b ≠ 0) &&
          decide (b * (1 + sd.thresholdPercent / 100) < ((tickAgg m results).primaryLatency : ℚ))

/-- An `INCIDENT#<id>/<start>` record (`IncidentItem`). -/
structure Incident where
  start : Nat
  error : String
  regionsDown : List String
  endTime : Option Nat
  ttl : Nat
deriving DecidableEq, Repr

/-- `PutCommand` on the incident key space: replaces the item with the same
sort key, else appends a new item. -/
def putIncident (incs : List Incident) (inc : Incident) : List Incident :=
  if incs.any (fun i => i.start == inc.start) then
    incs.map (fun i => if i.start == inc.start then inc else i)
  else incs ++ [inc]

/-- The most recent incident (`ScanIndexForward: false, Limit: 1`):
maximal sort key. -/
def latestIncident : List Incident → Option Incident
  | [] => none
  | i :: is =>
    match latestIncident is with
    | none => some i
    | some j => if j.start < i.start then some i else some j

/-- The close step of `updateIncident`: if the most recent incident has no
`end`, set its `end` to the current timestamp. -/
def closeLatest (incs : List Incident) (T : Nat) : List Incident :=
  match latestIncident incs with
  | none => incs
  | some i =>
    if i.endTime = none then
      incs.map (fun j => if j.start == i.start then { j with endTime := some T } else j)
    else incs

/-- Incident TTL: `Math.floor(timestamp / 1000) + 90 * 24 * 60 * 60`. -/
def incidentTTL (T : Nat) : Nat := T / 1000 + 90 * 24 * 60 * 60

/-- `updateIncident` from the aggregator Lambda: on `down` with a truthy
`downSince`, upsert the incident keyed by `downSince` with the current error
and down regions (and no `end`); on `up`, close the most recent incident if it
is open; otherwise (`degraded`) do nothing. -/
def updateIncident (incs : List Incident) (status : MStatus) (error : Option String)
    (downSince : Option Nat) (regionsDown : List String) (T : Nat) : List Incident :=
  if status = MStatus.down ∧ ¬ jsFalsy downSince = true then
    putIncident incs
      ⟨jsOr downSince 0, jsOrStr error "Unknown error", regionsDown, none, incidentTTL T⟩
  else if status = MStatus.up then closeLatest incs T
  else incs

/-- The `regionsDown` list the handler passes to `updateIncident`. -/
def downRegionsOf (agg : AggregatedResult) : List String :=
  (agg.regionStatuses.filter (fun p => p.2.status == RStatus.down)).map (·.1)

/-- Kind of a notification pushed by the handler. -/
inductive NotifKind where
  | down
  | upAfterDown
  | slow
  | fastAgain
  | spike
deriving DecidableEq, Repr

/-- The notifications pushed for one monitor at one tick, in handler order. -/
def tickKinds (m : Monitor) (cfg : NotifConfig) (results : List CheckResultItem)
    (latItems : List (Nat × Nat)) (prev : Option MonitorStateRec) (T : Nat) :
    List NotifKind :=
  (if downFires m cfg results prev T then [NotifKind.down] else []) ++
  (if upFires m cfg results prev T then [NotifKind.upAfterDown] else []) ++
  (if slowFires m results prev T then [NotifKind.slow] else []) ++
  (if fastFires m results prev then [NotifKind.fastAgain] else []) ++
  (if spikeAt m latItems results T then [NotifKind.spike] else [])

/-- The stored state after the tick: the `newState` put by
`updateMonitorState` plus the `lastNotifiedDown`/`lastNotifiedSlow` update
commands issued on firing. -/
def tickStored (m : Monitor) (cfg : NotifConfig) (results : List CheckResultItem)
    (prev : Option MonitorStateRec) (T : Nat) : MonitorStateRec :=
  let ns := tickNewState m results prev T
  { ns with
    lastNotifiedDown := if downFires m cfg results prev T then some T else ns.lastNotifiedDown
    lastNotifiedSlow := if slowFires m results prev T then some T else ns.lastNotifiedSlow }

/-- The incident store after the tick. -/
def tickIncs (m : Monitor) (results : List CheckResultItem)
    (prev : Option MonitorStateRec) (incs : List Incident) (T : Nat) : List Incident :=
  let agg := tickAgg m results
  updateIncident incs agg.status agg.error (tickNewState m results prev T).downSince
    (downRegionsOf agg) T

/-- One aggregator tick for one monitor: when no recent check results exist
the monitor is skipped (`continue`), otherwise the state is updated, the
incident store is updated, and notifications are pushed. -/
def monitorTick (m : Monitor) (cfg : NotifConfig) (results : List CheckResultItem)
    (latItems : List (Nat × Nat)) (prev : Option MonitorStateRec)
    (incs : List Incident) (T : Nat) :
    Option MonitorStateRec × List Incident × List NotifKind :=
  if results.isEmpty then (prev, incs, [])
  else (some (tickStored m cfg results prev T),
        tickIncs m results prev incs T,
        tickKinds m cfg results latItems prev T)

/-- Input of one aggregator tick for one monitor: the tick timestamp, the
check results collected for the monitor, and the latency items in the store
for the primary region. -/
structure TickInput where
  timestamp : Nat
  results : List CheckResultItem
  latItems : List (Nat × Nat) := []
deriving Repr

/-- Accumulated store contents across aggregator runs. -/
structure AggState where
  state : Option MonitorStateRec := none
  incidents : List Incident := []
  notifs : List (Nat × NotifKind) := []
deriving Repr

/-- A sequence of aggregator runs for one monitor, threading the stored
state and incident store and logging each notification with its tick time. -/
def runTicks (m : Monitor) (cfg : NotifConfig) (init : AggState)
    (ticks : List TickInput) : AggState :=
  ticks.foldl
    (fun acc tk =>
      let out := monitorTick m cfg tk.results tk.latItems acc.state acc.incidents tk.timestamp
      { state := out.1
        incidents := out.2.1
        notifs := acc.notifs ++ out.2.2.map (fun k => (tk.timestamp, k)) })
    init

/-- Descending insertion by sort key. The `CHECK#` sort key is
`<timestamp>#<region>` with the timestamp zero-padded (spec §4.4), so the
DynamoDB descending order is: larger timestamp first, ties broken by region
string descending. -/
def insertDescCheck (x : CheckResultItem) : List CheckResultItem → List CheckResultItem
  | [] => [x]
  | y :: ys =>
    if y.timestamp < x.timestamp ∨ (y.timestamp = x.timestamp ∧ y.region < x.region) then
      x :: y :: ys
    else y :: insertDescCheck x ys

/-- Sort `CHECK#` records most-recent-first (`ScanIndexForward: false`). -/
def sortCheckDesc (l : List CheckResultItem) : List CheckResultItem :=
  l.foldr insertDescCheck []

/-- The DynamoDB query of `getRecentCheckResults`: records with
`sk > "<cutoff>#"` (timestamp after the cutoff, or at the cutoff with a
nonempty region suffix), most recent first, limited to 5 items — the limit
applies to the whole `CHECK#<id>` partition, before any region filtering. -/
def queryCheckDesc (store : List CheckResultItem) (cutoff : Nat) : List CheckResultItem :=
  ((sortCheckDesc store).filter
    (fun r => decide (cutoff < r.timestamp ∨ (cutoff = r.timestamp ∧ r.region ≠ "")))).take 5

/-- `getRecentCheckResults` from the aggregator Lambda: for each region of the
monitor, run the limited query and keep the first returned record whose
`region` field matches; regions with no match contribute nothing. -/
def getRecentCheckResults (store : List CheckResultItem) (regions : List String)
    (T : Nat) : List CheckResultItem :=
  regions.foldl
    (fun acc region =>
      match (queryCheckDesc store (T - 90000)).filter (fun r => r.region == region) with
      | [] => acc
      | r :: _ => acc ++ [r])
    []

/-- Query parameters of `GET /api/badge`. -/
structure BadgeOptions where
  label : Option String := none
  up : Option String := none
  down : Option String := none
  colorUp : Option String := none
  colorDown : Option String := none
deriving DecidableEq, Repr

/-- The `isUp` test of `handleBadge`:
`state?.status === 'up' || state?.status === 'degraded'`. -/
def badgeIsUp (st : Option MonitorStateRec) : Bool :=
  decide (st.map (·.status) = some MStatus.up)
    || decide (st.map (·.status) = some MStatus.degraded)

/-- The shields.io-compatible body returned by `handleBadge`. -/
structure BadgeData where
  schemaVersion : Nat
  label : String
  message : String
  color : String
deriving DecidableEq, Repr

/-- `handleBadge` from the API Lambda (for a given stored state). -/
def handleBadge (st : Option MonitorStateRec) (opts : BadgeOptions) : BadgeData :=
  { schemaVersion := 1
    label := jsOrStr opts.label "status"
    message := if badgeIsUp st then jsOrStr opts.up "up" else jsOrStr opts.down "down"
    color := if badgeIsUp st then jsOrStr opts.colorUp "brightgreen"
             else jsOrStr opts.colorDown "red" }

/-- One monitor entry of the `GET /api/data` compatibility response. -/
structure DataMonitorEntry where
  up : Bool
  latency : Nat
  location : String
  message : String
deriving DecidableEq, Repr

/-- The per-monitor projection of `handleData`:
`up: maintenance ? true : state?.status === 'up' || state?.status === 'degraded'`. -/
def dataEntry (m : Monitor) (maintenance : Bool) (st : Option MonitorStateRec) :
    DataMonitorEntry :=
  { up := if maintenance then true
          else decide (st.map (·.status) = some MStatus.up)
            || decide (st.map (·.status) = some MStatus.degraded)
    latency := jsOr (st.map (·.primaryLatency)) 0
    location := m.primaryRegion
    message := if st.map (·.status) = some MStatus.down then "Service unavailable" else "OK" }

/-- Mask `lastNotifiedDown` (used to compare states up to that field). -/
def clearLnd (st : MonitorStateRec) : MonitorStateRec := { st with lastNotifiedDown := none }

/-- Every incident in the store is closed. -/
def allClosed (incs : List Incident) : Prop := ∀ i ∈ incs, i.endTime ≠ none

/-- Invariant of the incident store relative to the stored monitor state and
the time `lastT` of the last processed tick: incident keys are distinct and
at most `lastT`; a closed incident closed no earlier than it started; while
the monitor is down, `downSince` is a positive time `d ≤ lastT`, the open
incidents are exactly those keyed `d`, and every incident is keyed at most
`d`; otherwise every incident is closed. -/
def IncInv (st : Option MonitorStateRec) (incs : List Incident) (lastT : Nat) : Prop :=
  (incs.map (·.start)).Nodup ∧
  (∀ i ∈ incs, i.start ≤ lastT) ∧
  (∀ i ∈ incs, ∀ e, i.endTime = some e → i.start ≤ e) ∧
  ((st.map (·.status)).getD MStatus.up = MStatus.down →
    ∃ d, st.bind (·.downSince) = some d ∧ 0 < d ∧ d ≤ lastT ∧
      (∀ i ∈ incs,
        (i.endTime = none → i.start = d) ∧
        (i.start = d → i.endTime = none) ∧ i.start ≤ d)) ∧
  ((st.map (·.status)).getD MStatus.up ≠ MStatus.down → allClosed incs)

/-! ### Concrete instances used by counterexamples and code evaluations -/

/-- Single-region monitor with no latency threshold (C2 scenario). -/
def mC2 : Monitor := { id := "m", regions := ["a"], primaryRegion := "a" }

/-- Notification config with a 5-minute grace period (C2 scenario). -/
def cfgC2 : NotifConfig := { gracePeriod := some 5 }

/-- 61 one-minute ticks with the single region down throughout (C2 scenario:
down for a full hour starting at `T = 60 000`). -/
def ticksC2 : List TickInput :=
  (List.range 61).map (fun i =>
    { timestamp := 60000 + 60000 * i
      results := [⟨"a", RStatus.down, 0, none, some "err", 60000 + 60000 * i⟩] })

/-- Six-region monitor (C3 scenario). -/
def mC3 : Monitor :=
  { id := "m", regions := ["r1", "r2", "r3", "r4", "r5", "r6"], primaryRegion := "r1" }

/-- Six check records, one per region, all within the 90-second window before
`T = 200 000`; region `r6` has the oldest record. -/
def storeC3 : List CheckResultItem :=
  [⟨"r1", RStatus.up, 10, none, none, 190000⟩,
   ⟨"r2", RStatus.up, 11, none, none, 189000⟩,
   ⟨"r3", RStatus.up, 12, none, none, 188000⟩,
   ⟨"r4", RStatus.up, 13, none, none, 187000⟩,
   ⟨"r5", RStatus.up, 14, none, none, 186000⟩,
   ⟨"r6", RStatus.up, 15, none, none, 185000⟩]

/-- Three-region monitor (C4 scenario). -/
def mC4 : Monitor := { id := "m", regions := ["a", "b", "c"], primaryRegion := "a" }

/-- A down tick, a degraded tick (one region down), then a down tick again. -/
def ticksC4 : List TickInput :=
  [{ timestamp := 1000
     results := [⟨"a", RStatus.down, 0, none, some "e", 1000⟩,
                 ⟨"b", RStatus.down, 0, none, some "e", 1000⟩,
                 ⟨"c", RStatus.down, 0, none, some "e", 1000⟩] },
   { timestamp := 2000
     results := [⟨"a", RStatus.down, 0, none, some "e", 2000⟩,
                 ⟨"b", RStatus.up, 5, none, none, 2000⟩,
                 ⟨"c", RStatus.up, 6, none, none, 2000⟩] },
   { timestamp := 3000
     results := [⟨"a", RStatus.down, 0, none, some "e", 3000⟩,
                 ⟨"b", RStatus.down, 0, none, some "e", 3000⟩,
                 ⟨"c", RStatus.down, 0, none, some "e", 3000⟩] }]

/-- Skip-listed monitor with a 500 ms latency threshold (C5 scenario). -/
def mC5 : Monitor :=
  { id := "m1", regions := ["a"], primaryRegion := "a", latencyThreshold := some 500
    alerting := some { slowGracePeriod := some 3 } }

/-- Notification config whose skip list contains `mC5` (C5 scenario). -/
def cfgC5 : NotifConfig := { gracePeriod := some 5, skipNotificationIds := ["m1"] }

/-- A tick whose single region reports up with the given latency. -/
def upTick (t lat : Nat) : TickInput :=
  { timestamp := t, results := [⟨"a", RStatus.up, lat, none, none, t⟩] }

/-- Four slow one-minute ticks at 700 ms (C5 scenario). -/
def ticksC5 : List TickInput :=
  [upTick 60000 700, upTick 120000 700, upTick 180000 700, upTick 240000 700]

/-- Monitor with a 500 ms threshold (C6 scenario). -/
def mC6 : Monitor :=
  { id := "m", regions := ["a"], primaryRegion := "a", latencyThreshold := some 500 }

/-- Previous state that is down with both `lastNotified*` fields set. -/
def prevC6 : MonitorStateRec :=
  { status := MStatus.down, primaryLatency := 0, primaryTiming := emptyTiming
    regionStatuses := [], lastCheck := 800, downSince := some 400, slowSince := some 300
    lastNotifiedDown := some 500, lastNotifiedSlow := some 350 }

/-- Aggregated result of one fast up observation (C6 scenario). -/
def aggC6 : AggregatedResult :=
  aggregateResults mC6 [⟨"a", RStatus.up, 100, none, none, 900⟩]

/-- Monitor with a 500 ms threshold and a 3-minute slow grace (C7 scenario). -/
def mC7 : Monitor :=
  { id := "m", regions := ["a"], primaryRegion := "a", latencyThreshold := some 500
    alerting := some { slowGracePeriod := some 3 } }

/-- Two slow episodes: 700 ms at minutes 1–5, recovery at minute 6, 700 ms
again at minutes 7–11 (C7 scenario). -/
def ticksC7 : List TickInput :=
  [upTick 60000 700, upTick 120000 700, upTick 180000 700, upTick 240000 700,
   upTick 300000 700, upTick 360000 100, upTick 420000 700, upTick 480000 700,
   upTick 540000 700, upTick 600000 700, upTick 660000 700]

/-- Monitor with a 500 ms threshold and a 1-minute slow grace (C9 scenario). -/
def mC9 : Monitor :=
  { id := "m", regions := ["a"], primaryRegion := "a", latencyThreshold := some 500
    alerting := some { slowGracePeriod := some 1 } }

/-- One slow observation, reused unchanged by both runs (C9 scenario). -/
def resC9 : List CheckResultItem := [⟨"a", RStatus.up, 700, none, none, 60000⟩]

/-- Monitor with spike detection enabled: 200 % threshold, 1-minute baseline
window (C8 scenario). -/
def mC8 : Monitor :=
  { id := "m", regions := ["a"], primaryRegion := "a"
    alerting := some { spikeDetection := some ⟨true, 200, 1⟩ } }

/-- Six latency samples, all 0 ms, inside the baseline window (C8 scenario). -/
def latItemsC8 : List (Nat × Nat) := [(10, 0), (20, 0), (30, 0), (40, 0), (50, 0), (60, 0)]

/-- One check result with a 5 ms primary latency (C8 scenario). -/
def resC8 : List CheckResultItem := [⟨"a", RStatus.up, 5, none, none, 90⟩]

/-! ### C1: majority vote -/

/-- The vote threshold as the (amended) specification words it: the configured
`down_vote_threshold` when it is set and nonzero, `⌈n/2⌉` otherwise. -/
def claimThreshold (m : Monitor) : Nat :=
  match dvtOf m with
  | some t => if t ≠ 0 then t else (m.regions.length + 1) / 2
  | none => (m.regions.length + 1) / 2

/-- Monitor used as the C1 counterexample: a single region and a configured
vote threshold of `0`. -/
def mC1 : Monitor :=
  { id := "m"
    regions := ["a"]
    primaryRegion := "a"
    alerting := some { downVoteThreshold := some 0 } }

/-- C1 counterexample: for a monitor whose `alerting.down_vote_threshold` is
set to `0` the claim makes the threshold `0`, so with `d = 0` down regions it
demands status `down`; the code's `||` treats the configured `0` as unset,
falls back to `⌈1/2⌉ = 1`, and derives status `up`. -/
theorem C1_counterexample :
    dvtOf mC1 = some 0 ∧
    0 ≥ 0 ∧
    (aggregateResults mC1 []).regionsDown = 0 ∧
    (aggregateResults mC1 []).status ≠ MStatus.down := by
  refine ⟨rfl, le_refl 0, rfl, ?_⟩
  decide

/-- C1 (amended): the vote threshold equals `alerting.down_vote_threshold`
when it is set and nonzero and `⌈n/2⌉` otherwise; for a monitor with at least
one region, the derived status is `down` iff `d ≥ threshold`, `degraded` iff
`0 < d < threshold`, and `up` iff `d = 0`, where `d` is the number of regions
reporting down among the collected observations. -/
theorem C1_vote_threshold_amended (m : Monitor) (results : List CheckResultItem)
    (hn : 0 < m.regions.length) :
    voteThreshold m = claimThreshold m ∧
    ((aggregateResults m results).status = MStatus.down ↔
      voteThreshold m ≤ (aggregateResults m results).regionsDown) ∧
    ((aggregateResults m results).status = MStatus.degraded ↔
      0 < (aggregateResults m results).regionsDown ∧
        (aggregateResults m results).regionsDown < voteThreshold m) ∧
    ((aggregateResults m results).status = MStatus.up ↔
      (aggregateResults m results).regionsDown = 0) := by
  have hthr : voteThreshold m = claimThreshold m := by
    unfold voteThreshold claimThreshold jsOr
    cases h : dvtOf m with
    | none => rfl
    | some t =>
      by_cases ht : t = 0 <;> simp [ht]
  have hpos : 0 < claimThreshold m := by
    cases h : dvtOf m with
    | none => simp [claimThreshold, h]; omega
    | some t => by_cases ht : t = 0 <;> simp [claimThreshold, h, ht] <;> omega
  refine ⟨hthr, ?_⟩
  have hd : (aggregateResults m results).regionsDown =
      ((buildRegionStatuses results).filter (fun p => p.2.status == RStatus.down)).length := rfl
  have hs : (aggregateResults m results).status =
      (if (if voteThreshold m ≤
            ((buildRegionStatuses results).filter
              (fun p => p.2.status == RStatus.down)).length
          then RStatus.down else RStatus.up) = RStatus.down
        then MStatus.down
        else if 0 < ((buildRegionStatuses results).filter
            (fun p => p.2.status == RStatus.down)).length
          then MStatus.degraded else MStatus.up) := rfl
  rw [hd, hs, hthr]
  set len := ((buildRegionStatuses results).filter (fun p => p.2.status == RStatus.down)).length
    with hlen
  by_cases hge : claimThreshold m ≤ len
  · rw [if_pos hge, if_pos rfl]
    refine ⟨⟨fun _ => hge, fun _ => rfl⟩, ?_, ?_⟩
    · exact ⟨fun h => absurd h (by decide), fun h => by omega⟩
    · exact ⟨fun h => absurd h (by decide), fun h => by omega⟩
  · rw [if_neg hge, if_neg (by decide : ¬ RStatus.up = RStatus.down)]
    by_cases hz : 0 < len
    · rw [if_pos hz]
      refine ⟨?_, ?_, ?_⟩
      · exact ⟨fun h => absurd h (by decide), fun h => absurd h hge⟩
      · exact ⟨fun _ => ⟨hz, by omega⟩, fun _ => rfl⟩
      · exact ⟨fun h => absurd h (by decide), fun h => by omega⟩
    · rw [if_neg hz]
      refine ⟨?_, ?_, ?_⟩
      · exact ⟨fun h => absurd h (by decide), fun h => absurd h hge⟩
      · exact ⟨fun h => absurd h (by decide), fun h => by omega⟩
      · exact ⟨fun _ => by omega, fun _ => rfl⟩

/-- Witness for `C1_vote_threshold_amended` at a three-region monitor with one
region down: status is `degraded`, matching `0 < 1 < 2`. -/
theorem C1_vote_threshold_amended_witness :
    0 < (Monitor.mk "m" ["a", "b", "c"] "a" none none).regions.length ∧
    ((aggregateResults (Monitor.mk "m" ["a", "b", "c"] "a" none none)
        [⟨"a", RStatus.down, 0, none, none, 1000⟩,
         ⟨"b", RStatus.up, 5, none, none, 1000⟩,
         ⟨"c", RStatus.up, 7, none, none, 1000⟩]).status = MStatus.degraded ↔
      0 < (aggregateResults (Monitor.mk "m" ["a", "b", "c"] "a" none none)
        [⟨"a", RStatus.down, 0, none, none, 1000⟩,
         ⟨"b", RStatus.up, 5, none, none, 1000⟩,
         ⟨"c", RStatus.up, 7, none, none, 1000⟩]).regionsDown ∧
      (aggregateResults (Monitor.mk "m" ["a", "b", "c"] "a" none none)
        [⟨"a", RStatus.down, 0, none, none, 1000⟩,
         ⟨"b", RStatus.up, 5, none, none, 1000⟩,
         ⟨"c", RStatus.up, 7, none, none, 1000⟩]).regionsDown <
        voteThreshold (Monitor.mk "m" ["a", "b", "c"] "a" none none)) := by
  exact ⟨by decide,
    (C1_vote_threshold_amended (Monitor.mk "m" ["a", "b", "c"] "a" none none)
      [⟨"a", RStatus.down, 0, none, none, 1000⟩,
       ⟨"b", RStatus.up, 5, none, none, 1000⟩,
       ⟨"c", RStatus.up, 7, none, none, 1000⟩] (by decide)).2.2.1⟩


/-! ### C2: down notification edge-triggering -/

/-- C2: for a single-region monitor that is down for a full hour with a
5-minute grace period, the code sends no down notification at all: the
notification branch only runs on the status-change tick, where the down
duration is `0 < grace`. After 6 ticks the state satisfies every condition of
the claimed firing rule (`status = down`, `T − down_since ≥ grace`,
`last_notified_down` unset), yet the notification log of the whole run is
empty — the claim (and spec scenario) demand exactly one notification. -/
theorem C2_down_notification_never_fires :
    (runTicks mC2 cfgC2 {} ticksC2).notifs = [] ∧
    ((runTicks mC2 cfgC2 {} (ticksC2.take 6)).state.map (·.status)) = some MStatus.down ∧
    ((runTicks mC2 cfgC2 {} (ticksC2.take 6)).state.map (·.downSince)) = some (some 60000) ∧
    ((runTicks mC2 cfgC2 {} (ticksC2.take 6)).state.map (·.lastNotifiedDown)) = some none ∧
    downGraceMs cfgC2 ≤ 360000 - 60000 := by
  decide

/-! ### C3: per-region observation collection -/

/-- C3: the `Limit: 5` of the check-results query applies to the whole
`CHECK#<id>` partition before the region filter, so with six regions each
holding one record in the 90-second window, region `r6` (whose record is the
sixth most recent) is dropped from the tally even though its record is within
the window — the claim says each region's most recent in-window record is
used irrespective of other regions' records. -/
theorem C3_starved_region_omitted :
    ((getRecentCheckResults storeC3 mC3.regions 200000).map (·.region)) =
      ["r1", "r2", "r3", "r4", "r5"] ∧
    (⟨"r6", RStatus.up, 15, none, none, 185000⟩ : CheckResultItem) ∈ storeC3 ∧
    200000 - 185000 ≤ 90000 := by
  decide

/-! ### C7: slow notification per episode -/

/-- C7: over two slow episodes (700 ms against a 500 ms threshold with a
3-minute grace, separated by one fast sample), the code fires the slow
notification only for the first episode (at `slow_since + 3 min`) and the
fast-again notification on recovery; in the second episode the state before
the `T = 600 000` tick satisfies the latency and grace conditions but
`last_notified_slow` is still set from the first episode (it is never
cleared), so no slow notification fires — the claim demands exactly one per
episode. -/
theorem C7_second_slow_episode_unnotified :
    (runTicks mC7 {} {} ticksC7).notifs =
      [(240000, NotifKind.slow), (360000, NotifKind.fastAgain)] ∧
    ((runTicks mC7 {} {} (ticksC7.take 9)).state.map (·.slowSince)) = some (some 420000) ∧
    ((runTicks mC7 {} {} (ticksC7.take 9)).state.map (·.lastNotifiedSlow)) =
      some (some 240000) ∧
    jsOr mC7.latencyThreshold 0 < 700 ∧
    slowGraceMs mC7 ≤ 600000 - 420000 := by
  decide

/-! ### C4: incident lifecycle (counterexample) -/

/-- C4 counterexample: after down → degraded → down, two incidents
(`start = 1000` and `start = 3000`) are simultaneously open, refuting the
claimed invariant that at most one incident per monitor is open at any time:
the degraded tick does not close the first incident and the second down tick
opens a new one. -/
theorem C4_counterexample_two_open_incidents :
    ((runTicks mC4 {} {} ticksC4).incidents.filter (fun i => i.endTime = none)).length = 2 ∧
    ((runTicks mC4 {} {} ticksC4).incidents.map (·.start)) = [1000, 3000] := by
  decide

/-! ### C5: skip list (counterexample) -/

/-- C5 counterexample: a monitor on the notification skip list still gets a
slow notification (at the first tick past the slow grace period), refuting
the claim that skip-listed monitors produce no notifications of any kind —
only the down / up-after-down block checks the skip list. -/
theorem C5_counterexample_slow_notification_for_skipped :
    mC5.id ∈ cfgC5.skipNotificationIds ∧
    (runTicks mC5 cfgC5 {} ticksC5).notifs = [(240000, NotifKind.slow)] := by
  decide

/-! ### C6: clearing on recovery (counterexample) -/

/-- C6 counterexample: on a transition from down (with both `lastNotified*`
fields set) to up with the primary latency below the threshold, the new state
keeps `lastNotifiedDown = 500` and `lastNotifiedSlow = 350` — the claim says
both are cleared. -/
theorem C6_counterexample_lastNotified_preserved :
    aggC6.status = MStatus.up ∧
    prevC6.status = MStatus.down ∧
    aggC6.primaryLatency ≤ 500 ∧
    mC6.latencyThreshold = some 500 ∧
    (updateMonitorState mC6 aggC6 (some prevC6) 1000).2.lastNotifiedDown = some 500 ∧
    (updateMonitorState mC6 aggC6 (some prevC6) 1000).2.lastNotifiedSlow = some 350 := by
  decide

/-! ### C8: spike detection (counterexample) -/

/-- C8 counterexample: with six in-window samples of 0 ms the baseline is
`some 0`; the claimed condition `primary_latency > baseline × (1 + pct/100)`
holds (`5 > 0`), but the code's `baseline &&` guard treats the 0 baseline as
falsy, so no spike fires. -/
theorem C8_counterexample_zero_baseline :
    getBaselineLatency latItemsC8 100 1 = some 0 ∧
    ((0 : ℚ) * (1 + 200 / 100) < ((5 : Nat) : ℚ)) ∧
    spikeAt mC8 latItemsC8 resC8 100 = false := by
  have h1 : getBaselineLatency latItemsC8 100 1 = some 0 := by
    norm_num [getBaselineLatency, latItemsC8, sortAsc, insertAsc]
  refine ⟨h1, by norm_num, ?_⟩
  simp [spikeAt, mC8, h1]

/-! ### C9: idempotence (counterexample) -/

/-- C9 counterexample: running the aggregator twice on the same unchanged
slow observation (threshold 500 ms, 1-minute slow grace), the second run sets
`lastNotifiedSlow = 120000` where the first run left it unset, so the second
state differs from the first in more than `last_check_ms`. -/
theorem C9_counterexample_slow_notify_second_run :
    ((monitorTick mC9 {} resC9 [] none [] 60000).1.map (·.lastNotifiedSlow)) = some none ∧
    ((monitorTick mC9 {} resC9 []
        (monitorTick mC9 {} resC9 [] none [] 60000).1
        (monitorTick mC9 {} resC9 [] none [] 60000).2.1 120000).1.map
      (·.lastNotifiedSlow)) = some (some 120000) := by
  decide

/-! ### Projection lemmas for the tick pipeline -/

theorem tickNewState_status (m : Monitor) (results : List CheckResultItem)
    (prev : Option MonitorStateRec) (T : Nat) :
    (tickNewState m results prev T).status = (tickAgg m results).status := rfl

theorem tickNewState_downSince (m : Monitor) (results : List CheckResultItem)
    (prev : Option MonitorStateRec) (T : Nat) :
    (tickNewState m results prev T).downSince =
      if (tickAgg m results).status = MStatus.down ∧
          (prev.map (·.status)).getD MStatus.up ≠ MStatus.down then some T
      else if (tickAgg m results).status ≠ MStatus.down then none
      else prev.bind (·.downSince) := rfl

theorem tickNewState_slowSince (m : Monitor) (results : List CheckResultItem)
    (prev : Option MonitorStateRec) (T : Nat) :
    (tickNewState m results prev T).slowSince =
      if ¬ jsFalsy m.latencyThreshold = true ∧
          jsOr m.latencyThreshold 0 < (tickAgg m results).primaryLatency then
        (if jsFalsy (prev.bind (·.slowSince)) then some T else prev.bind (·.slowSince))
      else none := rfl

theorem tickNewState_lastNotifiedDown (m : Monitor) (results : List CheckResultItem)
    (prev : Option MonitorStateRec) (T : Nat) :
    (tickNewState m results prev T).lastNotifiedDown = prev.bind (·.lastNotifiedDown) := rfl

theorem tickNewState_lastNotifiedSlow (m : Monitor) (results : List CheckResultItem)
    (prev : Option MonitorStateRec) (T : Nat) :
    (tickNewState m results prev T).lastNotifiedSlow = prev.bind (·.lastNotifiedSlow) := rfl

theorem tickChanged_eq (m : Monitor) (results : List CheckResultItem)
    (prev : Option MonitorStateRec) (T : Nat) :
    tickChanged m results prev T =
      decide ((prev.map (·.status)).getD MStatus.up ≠ (tickAgg m results).status) := rfl

theorem tickStored_status (m : Monitor) (cfg : NotifConfig) (results : List CheckResultItem)
    (prev : Option MonitorStateRec) (T : Nat) :
    (tickStored m cfg results prev T).status = (tickAgg m results).status := rfl

theorem tickStored_downSince (m : Monitor) (cfg : NotifConfig) (results : List CheckResultItem)
    (prev : Option MonitorStateRec) (T : Nat) :
    (tickStored m cfg results prev T).downSince =
      (tickNewState m results prev T).downSince := rfl

theorem tickStored_slowSince (m : Monitor) (cfg : NotifConfig) (results : List CheckResultItem)
    (prev : Option MonitorStateRec) (T : Nat) :
    (tickStored m cfg results prev T).slowSince =
      (tickNewState m results prev T).slowSince := rfl

theorem tickStored_lastCheck (m : Monitor) (cfg : NotifConfig) (results : List CheckResultItem)
    (prev : Option MonitorStateRec) (T : Nat) :
    (tickStored m cfg results prev T).lastCheck = T := rfl

theorem tickStored_lastNotifiedDown (m : Monitor) (cfg : NotifConfig)
    (results : List CheckResultItem) (prev : Option MonitorStateRec) (T : Nat) :
    (tickStored m cfg results prev T).lastNotifiedDown =
      if downFires m cfg results prev T then some T
      else prev.bind (·.lastNotifiedDown) := rfl

theorem tickStored_lastNotifiedSlow (m : Monitor) (cfg : NotifConfig)
    (results : List CheckResultItem) (prev : Option MonitorStateRec) (T : Nat) :
    (tickStored m cfg results prev T).lastNotifiedSlow =
      if slowFires m results prev T then some T
      else prev.bind (·.lastNotifiedSlow) := rfl

/-! ### C6: clearing on recovery (amended) -/

/-- C6 (amended): in every aggregator state update, on any transition to
status up the new `MonitorState` has `down_since` cleared while
`last_notified_down` is preserved from the previous state, and whenever the
new primary latency is at most the configured latency threshold the new
`MonitorState` has `slow_since` cleared while `last_notified_slow` is
preserved. -/
theorem C6_clear_on_recovery_amended (m : Monitor) (agg : AggregatedResult)
    (prev : Option MonitorStateRec) (T : Nat) :
    (agg.status = MStatus.up →
      (updateMonitorState m agg prev T).2.downSince = none ∧
      (updateMonitorState m agg prev T).2.lastNotifiedDown = prev.bind (·.lastNotifiedDown)) ∧
    (∀ t, m.latencyThreshold = some t → agg.primaryLatency ≤ t →
      (updateMonitorState m agg prev T).2.slowSince = none ∧
      (updateMonitorState m agg prev T).2.lastNotifiedSlow = prev.bind (·.lastNotifiedSlow)) := by
  constructor
  · intro hup
    refine ⟨?_, rfl⟩
    show (if agg.status = MStatus.down ∧ (prev.map (·.status)).getD MStatus.up ≠ MStatus.down
          then some T
          else if agg.status ≠ MStatus.down then none
          else prev.bind (·.downSince)) = none
    rw [hup]
    simp
  · intro t ht hle
    refine ⟨?_, rfl⟩
    show (if ¬ jsFalsy m.latencyThreshold = true ∧
            jsOr m.latencyThreshold 0 < agg.primaryLatency then
          (if jsFalsy (prev.bind (·.slowSince)) then some T else prev.bind (·.slowSince))
          else none) = none
    rw [if_neg]
    rintro ⟨h1, h2⟩
    by_cases t0 : t = 0
    · exact h1 (by simp [ht, jsFalsy, t0])
    · rw [ht] at h2
      simp [jsOr, t0] at h2
      omega

/-- Witness for `C6_clear_on_recovery_amended` at the C6 scenario: the up
transition clears `downSince` and keeps `lastNotifiedDown = 500`; the
below-threshold latency clears `slowSince` and keeps
`lastNotifiedSlow = 350`. -/
theorem C6_clear_on_recovery_amended_witness :
    aggC6.status = MStatus.up ∧
    ((updateMonitorState mC6 aggC6 (some prevC6) 1000).2.downSince = none ∧
      (updateMonitorState mC6 aggC6 (some prevC6) 1000).2.lastNotifiedDown =
        (some prevC6).bind (·.lastNotifiedDown)) ∧
    ((updateMonitorState mC6 aggC6 (some prevC6) 1000).2.slowSince = none ∧
      (updateMonitorState mC6 aggC6 (some prevC6) 1000).2.lastNotifiedSlow =
        (some prevC6).bind (·.lastNotifiedSlow)) :=
  ⟨by decide,
   (C6_clear_on_recovery_amended mC6 aggC6 (some prevC6) 1000).1 (by decide),
   (C6_clear_on_recovery_amended mC6 aggC6 (some prevC6) 1000).2 500 (by decide) (by decide)⟩

/-! ### C10: compatibility projections -/

/-- C10: for a monitor not in maintenance, the `/api/data` entry reports
`up = true` iff the stored status is `up` or `degraded`, the badge uses the
up message and up colour iff the stored status is `up` or `degraded`, and a
monitor with no stored state is reported as down by both endpoints. -/
theorem C10_data_badge_projection (m : Monitor) (st : Option MonitorStateRec)
    (opts : BadgeOptions) :
    ((dataEntry m false st).up = true ↔
      st.map (·.status) = some MStatus.up ∨ st.map (·.status) = some MStatus.degraded) ∧
    (badgeIsUp st = true ↔
      st.map (·.status) = some MStatus.up ∨ st.map (·.status) = some MStatus.degraded) ∧
    ((handleBadge st opts).message =
      if badgeIsUp st then jsOrStr opts.up "up" else jsOrStr opts.down "down") ∧
    ((handleBadge st opts).color =
      if badgeIsUp st then jsOrStr opts.colorUp "brightgreen" else jsOrStr opts.colorDown "red") ∧
    (st = none → (dataEntry m false st).up = false ∧ badgeIsUp st = false) := by
  refine ⟨?_, ?_, rfl, rfl, ?_⟩
  · simp [dataEntry]
  · simp [badgeIsUp]
  · rintro rfl
    exact ⟨rfl, rfl⟩

/-- Witness for `C10_data_badge_projection`: a monitor with no stored state
is reported down by both `/api/data` and the badge endpoint. -/
theorem C10_data_badge_projection_witness :
    (dataEntry mC2 false none).up = false ∧ badgeIsUp none = false :=
  (C10_data_badge_projection mC2 none {}).2.2.2.2 rfl

/-! ### C5: skip list (amended) -/

/-- C5 (amended): for a monitor on the notification skip list, no down and no
up-after-down notification is emitted at any tick; the incident update is
identical to the one without the skip list; the slow / fast-again / spike
notifications are the same as without the skip list; and the stored state
agrees with the unskipped one except possibly in `lastNotifiedDown` (which is
only stamped when a down notification fires). -/
theorem C5_skip_list_amended (m : Monitor) (cfg : NotifConfig)
    (results : List CheckResultItem) (latItems : List (Nat × Nat))
    (prev : Option MonitorStateRec) (incs : List Incident) (T : Nat)
    (h : m.id ∈ cfg.skipNotificationIds) :
    NotifKind.down ∉ (monitorTick m cfg results latItems prev incs T).2.2 ∧
    NotifKind.upAfterDown ∉ (monitorTick m cfg results latItems prev incs T).2.2 ∧
    (monitorTick m cfg results latItems prev incs T).2.1 =
      (monitorTick m { cfg with skipNotificationIds := [] } results latItems prev incs T).2.1 ∧
    (monitorTick m cfg results latItems prev incs T).2.2.filter
        (fun k => !(k == NotifKind.down || k == NotifKind.upAfterDown)) =
      (monitorTick m { cfg with skipNotificationIds := [] }
          results latItems prev incs T).2.2.filter
        (fun k => !(k == NotifKind.down || k == NotifKind.upAfterDown)) ∧
    (monitorTick m cfg results latItems prev incs T).1.map clearLnd =
      (monitorTick m { cfg with skipNotificationIds := [] }
          results latItems prev incs T).1.map clearLnd := by
  have hskip : cfg.skipNotificationIds.contains m.id = true := List.elem_iff.mpr h
  by_cases hres : results.isEmpty
  · simp [monitorTick, hres]
  · have hdf : downFires m cfg results prev T = false := by
      simp only [downFires, hskip]
      simp
    have huf : upFires m cfg results prev T = false := by
      simp only [upFires, hskip]
      simp
    refine ⟨?_, ?_, ?_, ?_, ?_⟩
    · simp only [monitorTick, hres, if_false, Bool.false_eq_true]
      simp only [tickKinds, hdf, huf, if_false, Bool.false_eq_true, List.nil_append]
      cases hs : slowFires m results prev T <;>
        cases hf : fastFires m results prev <;>
        cases hsp : spikeAt m latItems results T <;> simp
    · simp only [monitorTick, hres, if_false, Bool.false_eq_true]
      simp only [tickKinds, hdf, huf, if_false, Bool.false_eq_true, List.nil_append]
      cases hs : slowFires m results prev T <;>
        cases hf : fastFires m results prev <;>
        cases hsp : spikeAt m latItems results T <;> simp
    · simp [monitorTick, hres]
    · simp only [monitorTick, hres, if_false, Bool.false_eq_true]
      simp only [tickKinds, hdf, huf, if_false, Bool.false_eq_true, List.nil_append,
        List.filter_append]
      cases hd0 : downFires m { cfg with skipNotificationIds := [] } results prev T <;>
        cases hu0 : upFires m { cfg with skipNotificationIds := [] } results prev T <;>
        cases hs : slowFires m results prev T <;>
        cases hf : fastFires m results prev <;>
        cases hsp : spikeAt m latItems results T <;>
        simp [List.filter_append]
    · simp only [monitorTick, hres, if_false, Bool.false_eq_true, Option.map_some]
      simp only [tickStored, clearLnd, hdf]
      rfl

/-- Witness for `C5_skip_list_amended` at the C5 scenario tick: the
skip-listed monitor gets no down / up-after-down notification, and incidents
match the unskipped run. -/
theorem C5_skip_list_amended_witness :
    mC5.id ∈ cfgC5.skipNotificationIds ∧
    NotifKind.down ∉
      (monitorTick mC5 cfgC5 (upTick 60000 700).results [] none [] 60000).2.2 ∧
    (monitorTick mC5 cfgC5 (upTick 60000 700).results [] none [] 60000).2.1 =
      (monitorTick mC5 { cfgC5 with skipNotificationIds := [] }
          (upTick 60000 700).results [] none [] 60000).2.1 :=
  ⟨by decide,
   (C5_skip_list_amended mC5 cfgC5 (upTick 60000 700).results [] none [] 60000
      (by decide)).1,
   (C5_skip_list_amended mC5 cfgC5 (upTick 60000 700).results [] none [] 60000
      (by decide)).2.2.1⟩

/-! ### Incident-store lemmas -/

theorem closeLatest_map_start (incs : List Incident) (T : Nat) :
    (closeLatest incs T).map (·.start) = incs.map (·.start) := by
  unfold closeLatest
  cases h : latestIncident incs with
  | none => rfl
  | some i =>
    dsimp only
    by_cases he : i.endTime = none
    · rw [if_pos he, List.map_map]
      apply List.map_congr_left
      intro j hj
      by_cases hs : (j.start == i.start) = true
      · simp only [Function.comp, hs, if_true]
      · simp only [Function.comp, hs, if_false, Bool.false_eq_true]
    · rw [if_neg he]

theorem putIncident_map_start_of_mem (incs : List Incident) (inc : Incident)
    (h : inc.start ∈ incs.map (·.start)) :
    (putIncident incs inc).map (·.start) = incs.map (·.start) := by
  unfold putIncident
  have hany : incs.any (fun i => i.start == inc.start) = true := by
    rw [List.any_eq_true]
    obtain ⟨j, hj, hjs⟩ := List.mem_map.mp h
    exact ⟨j, hj, by simp [hjs]⟩
  rw [if_pos hany, List.map_map]
  apply List.map_congr_left
  intro j hj
  by_cases hs : (j.start == inc.start) = true
  · simp only [Function.comp, hs, if_true]
    exact (eq_of_beq hs).symm
  · simp only [Function.comp, hs, if_false, Bool.false_eq_true]

theorem putIncident_start_mem (incs : List Incident) (inc : Incident) :
    inc.start ∈ (putIncident incs inc).map (·.start) := by
  unfold putIncident
  by_cases hany : incs.any (fun i => i.start == inc.start) = true
  · rw [if_pos hany, List.map_map]
    obtain ⟨j, hj, hjs⟩ := List.any_eq_true.mp hany
    refine List.mem_map.mpr ⟨j, hj, ?_⟩
    simp only [Function.comp, hjs, if_true]
  · rw [if_neg hany]
    simp

/-! ### C9: idempotence (amended) -/

/-- C9 (amended): running the aggregator a second time (at a later timestamp)
over the same unchanged observations produces a stored `MonitorState`
identical to the first run's except for `last_check_ms` and possibly
`last_notified_slow` (which the second run may stamp when the slow grace
period elapses between the runs); `down_since`, `slow_since` and
`last_notified_down` are preserved, and the incident store keeps exactly the
same set of keys. -/
theorem C9_idempotence_amended (m : Monitor) (cfg : NotifConfig)
    (results : List CheckResultItem) (prev : Option MonitorStateRec)
    (incs : List Incident) (T1 T2 : Nat) (h1 : 0 < T1) (_h12 : T1 < T2) :
    (tickStored m cfg results (some (tickStored m cfg results prev T1)) T2).status =
      (tickStored m cfg results prev T1).status ∧
    (tickStored m cfg results (some (tickStored m cfg results prev T1)) T2).primaryLatency =
      (tickStored m cfg results prev T1).primaryLatency ∧
    (tickStored m cfg results (some (tickStored m cfg results prev T1)) T2).primaryTiming =
      (tickStored m cfg results prev T1).primaryTiming ∧
    (tickStored m cfg results (some (tickStored m cfg results prev T1)) T2).regionStatuses =
      (tickStored m cfg results prev T1).regionStatuses ∧
    (tickStored m cfg results (some (tickStored m cfg results prev T1)) T2).downSince =
      (tickStored m cfg results prev T1).downSince ∧
    (tickStored m cfg results (some (tickStored m cfg results prev T1)) T2).slowSince =
      (tickStored m cfg results prev T1).slowSince ∧
    (tickStored m cfg results (some (tickStored m cfg results prev T1)) T2).lastNotifiedDown =
      (tickStored m cfg results prev T1).lastNotifiedDown ∧
    (tickStored m cfg results (some (tickStored m cfg results prev T1)) T2).lastCheck = T2 ∧
    ((tickStored m cfg results (some (tickStored m cfg results prev T1)) T2).lastNotifiedSlow =
        (tickStored m cfg results prev T1).lastNotifiedSlow ∨
      (tickStored m cfg results (some (tickStored m cfg results prev T1)) T2).lastNotifiedSlow =
        some T2) ∧
    (tickIncs m results (some (tickStored m cfg results prev T1))
        (tickIncs m results prev incs T1) T2).map (·.start) =
      (tickIncs m results prev incs T1).map (·.start) := by
  have hstat1 : (tickStored m cfg results prev T1).status = (tickAgg m results).status := rfl
  have hchanged : tickChanged m results (some (tickStored m cfg results prev T1)) T2 = false := by
    rw [tickChanged_eq]
    simp [hstat1]
  have hdf2 : downFires m cfg results (some (tickStored m cfg results prev T1)) T2 = false := by
    simp only [downFires, hchanged, Bool.false_and]
  have hds : (tickNewState m results (some (tickStored m cfg results prev T1)) T2).downSince
      = (tickStored m cfg results prev T1).downSince := by
    rw [tickNewState_downSince]
    cases hstat : (tickAgg m results).status with
    | down =>
      have h' : (tickStored m cfg results prev T1).status = MStatus.down := by
        rw [hstat1, hstat]
      rw [if_neg (by simp [h']), if_neg (by simp)]
      rfl
    | up =>
      rw [tickStored_downSince, tickNewState_downSince, hstat]
      simp
    | degraded =>
      rw [tickStored_downSince, tickNewState_downSince, hstat]
      simp
  have hss : (tickNewState m results (some (tickStored m cfg results prev T1)) T2).slowSince
      = (tickStored m cfg results prev T1).slowSince := by
    rw [tickNewState_slowSince]
    by_cases hcond : ¬ jsFalsy m.latencyThreshold = true ∧
        jsOr m.latencyThreshold 0 < (tickAgg m results).primaryLatency
    · rw [if_pos hcond]
      have hb : (some (tickStored m cfg results prev T1)).bind (fun x => x.slowSince) =
          (tickStored m cfg results prev T1).slowSince := rfl
      have hs1 : (tickStored m cfg results prev T1).slowSince =
          if jsFalsy (prev.bind (·.slowSince)) then some T1
          else prev.bind (·.slowSince) := by
        rw [tickStored_slowSince, tickNewState_slowSince, if_pos hcond]
      rw [hb, hs1]
      cases hfs : jsFalsy (prev.bind (·.slowSince))
      · simp [hfs]
      · have hT1 : (T1 == 0) = false := by
          simp only [beq_eq_false_iff_ne, ne_eq]
          omega
        simp [hfs, jsFalsy, hT1]
    · rw [if_neg hcond]
      rw [tickStored_slowSince, tickNewState_slowSince, if_neg hcond]
  have hmap : (tickIncs m results (some (tickStored m cfg results prev T1))
        (tickIncs m results prev incs T1) T2).map (·.start) =
      (tickIncs m results prev incs T1).map (·.start) := by
    rw [show tickIncs m results (some (tickStored m cfg results prev T1))
          (tickIncs m results prev incs T1) T2 =
        updateIncident (tickIncs m results prev incs T1) (tickAgg m results).status
          (tickAgg m results).error
          (tickNewState m results (some (tickStored m cfg results prev T1)) T2).downSince
          (downRegionsOf (tickAgg m results)) T2 from rfl]
    rw [hds, tickStored_downSince]
    cases hstat : (tickAgg m results).status with
    | up =>
      unfold updateIncident
      rw [if_neg (by simp), if_pos rfl]
      exact closeLatest_map_start _ _
    | degraded =>
      unfold updateIncident
      rw [if_neg (by simp), if_neg (by simp)]
    | down =>
      rw [show tickIncs m results prev incs T1 =
          updateIncident incs (tickAgg m results).status (tickAgg m results).error
            (tickNewState m results prev T1).downSince
            (downRegionsOf (tickAgg m results)) T1 from rfl, hstat]
      by_cases hf : jsFalsy ((tickNewState m results prev T1).downSince) = true
      · have e1 : ∀ (l : List Incident) (T' : Nat),
            updateIncident l MStatus.down (tickAgg m results).error
              (tickNewState m results prev T1).downSince
              (downRegionsOf (tickAgg m results)) T' = l := by
          intro l T'
          unfold updateIncident
          rw [if_neg (by simp [hf]), if_neg (by simp)]
        rw [e1, e1]
      · have hg : MStatus.down = MStatus.down ∧
            ¬ jsFalsy ((tickNewState m results prev T1).downSince) = true := ⟨rfl, hf⟩
        unfold updateIncident
        rw [if_pos hg, if_pos hg]
        exact putIncident_map_start_of_mem _ _ (putIncident_start_mem _ _)
  refine ⟨rfl, rfl, rfl, rfl, ?_, ?_, ?_, rfl, ?_, hmap⟩
  · rw [tickStored_downSince, hds]
  · rw [tickStored_slowSince, hss]
  · rw [tickStored_lastNotifiedDown, hdf2]
    simp only [Bool.false_eq_true, if_false]
    rfl
  · rw [tickStored_lastNotifiedSlow]
    cases hsf : slowFires m results (some (tickStored m cfg results prev T1)) T2
    · exact Or.inl (by simp)
    · exact Or.inr (by simp)

/-- Witness for `C9_idempotence_amended` at the C9 scenario: the second run
keeps `down_since`, `slow_since` and `last_notified_down`, stamps
`last_check = 120000`, and preserves the incident keys. -/
theorem C9_idempotence_amended_witness :
    0 < 60000 ∧ 60000 < 120000 ∧
    (tickStored mC9 {} resC9 (some (tickStored mC9 {} resC9 none 60000)) 120000).slowSince =
      (tickStored mC9 {} resC9 none 60000).slowSince ∧
    (tickStored mC9 {} resC9 (some (tickStored mC9 {} resC9 none 60000)) 120000).lastCheck =
      120000 :=
  ⟨by decide, by decide,
   (C9_idempotence_amended mC9 {} resC9 none [] 60000 120000 (by decide)
      (by decide)).2.2.2.2.2.1,
   (C9_idempotence_amended mC9 {} resC9 none [] 60000 120000 (by decide)
      (by decide)).2.2.2.2.2.2.2.1⟩

/-! ### Further incident-store lemmas (for C4) -/

theorem latestIncident_mem : ∀ {incs : List Incident} {i : Incident},
    latestIncident incs = some i → i ∈ incs := by
  intro incs
  induction incs with
  | nil => intro i h; exact absurd h (by simp [latestIncident])
  | cons a tl ih =>
    intro i h
    rw [latestIncident] at h
    cases htl : latestIncident tl with
    | none =>
      rw [htl] at h
      dsimp only at h
      exact (Option.some_inj.mp h) ▸ List.mem_cons_self a tl
    | some j =>
      rw [htl] at h
      dsimp only at h
      by_cases hlt : j.start < a.start
      · rw [if_pos hlt] at h
        exact (Option.some_inj.mp h) ▸ List.mem_cons_self a tl
      · rw [if_neg hlt] at h
        exact List.mem_cons_of_mem a (ih ((Option.some_inj.mp h) ▸ htl))

theorem latestIncident_max : ∀ {incs : List Incident} {i : Incident},
    latestIncident incs = some i → ∀ j ∈ incs, j.start ≤ i.start := by
  intro incs
  induction incs with
  | nil => intro i _ j hj; exact absurd hj (by simp)
  | cons a tl ih =>
    intro i h j hj
    rw [latestIncident] at h
    cases htl : latestIncident tl with
    | none =>
      rw [htl] at h
      dsimp only at h
      have htlnil : tl = [] := by
        cases tl with
        | nil => rfl
        | cons b tl2 =>
          rw [latestIncident] at htl
          cases h2 : latestIncident tl2 <;> rw [h2] at htl <;> dsimp only at htl
          · exact absurd htl (by simp)
          · split at htl <;> simp at htl
      subst htlnil
      rcases List.mem_singleton.mp hj with rfl
      exact (Option.some_inj.mp h) ▸ le_refl _
    | some k =>
      rw [htl] at h
      dsimp only at h
      rcases List.mem_cons.mp hj with rfl | hjtl
      · by_cases hlt : k.start < j.start
        · rw [if_pos hlt] at h
          exact (Option.some_inj.mp h) ▸ le_refl _
        · rw [if_neg hlt] at h
          exact (Option.some_inj.mp h) ▸ Nat.le_of_not_lt hlt
      · have hk := ih htl j hjtl
        by_cases hlt : k.start < a.start
        · rw [if_pos hlt] at h
          exact (Option.some_inj.mp h) ▸ le_of_lt (lt_of_le_of_lt hk hlt)
        · rw [if_neg hlt] at h
          exact (Option.some_inj.mp h) ▸ hk

theorem latestIncident_eq_none {incs : List Incident}
    (h : latestIncident incs = none) : incs = [] := by
  cases incs with
  | nil => rfl
  | cons a tl =>
    rw [latestIncident] at h
    cases h2 : latestIncident tl <;> rw [h2] at h <;> dsimp only at h
    · exact absurd h (by simp)
    · split at h <;> simp at h

theorem mem_putIncident {incs : List Incident} {inc j : Incident}
    (hj : j ∈ putIncident incs inc) :
    j = inc ∨ (j ∈ incs ∧ j.start ≠ inc.start) := by
  unfold putIncident at hj
  by_cases hany : incs.any (fun i => i.start == inc.start) = true
  · rw [if_pos hany] at hj
    obtain ⟨i, hi, hij⟩ := List.mem_map.mp hj
    by_cases hs : (i.start == inc.start) = true
    · rw [if_pos hs] at hij
      exact Or.inl hij.symm
    · rw [if_neg hs] at hij
      refine Or.inr ⟨hij ▸ hi, ?_⟩
      rw [← hij]
      exact fun hc => hs (by simpa using hc)
  · rw [if_neg hany] at hj
    rcases List.mem_append.mp hj with hl | hr
    · refine Or.inr ⟨hl, fun hc => ?_⟩
      rw [List.any_eq_true] at hany
      exact hany ⟨j, hl, beq_iff_eq.mpr hc⟩
    · exact Or.inl (List.mem_singleton.mp hr)

theorem putIncident_mem_self (incs : List Incident) (inc : Incident) :
    inc ∈ putIncident incs inc := by
  unfold putIncident
  by_cases hany : incs.any (fun i => i.start == inc.start) = true
  · rw [if_pos hany]
    obtain ⟨i, hi, his⟩ := List.any_eq_true.mp hany
    exact List.mem_map.mpr ⟨i, hi, by rw [if_pos his]⟩
  · rw [if_neg hany]
    simp

theorem mem_putIncident_of_ne {incs : List Incident} {inc j : Incident}
    (hj : j ∈ incs) (hne : j.start ≠ inc.start) : j ∈ putIncident incs inc := by
  unfold putIncident
  by_cases hany : incs.any (fun i => i.start == inc.start) = true
  · rw [if_pos hany]
    refine List.mem_map.mpr ⟨j, hj, ?_⟩
    rw [if_neg (by simpa using hne)]
  · rw [if_neg hany]
    exact List.mem_append.mpr (Or.inl hj)

theorem putIncident_nodup {incs : List Incident} {inc : Incident}
    (h : (incs.map (·.start)).Nodup) :
    ((putIncident incs inc).map (·.start)).Nodup := by
  by_cases hmem : inc.start ∈ incs.map (·.start)
  · rw [putIncident_map_start_of_mem incs inc hmem]
    exact h
  · have hany : incs.any (fun i => i.start == inc.start) = false := by
      rw [Bool.eq_false_iff]
      intro hc
      obtain ⟨i, hi, his⟩ := List.any_eq_true.mp hc
      exact hmem (List.mem_map.mpr ⟨i, hi, eq_of_beq his⟩)
    unfold putIncident
    rw [hany]
    simp only [Bool.false_eq_true, if_false, List.map_append, List.map_cons, List.map_nil]
    rw [List.nodup_append]
    refine ⟨h, List.nodup_singleton _, ?_⟩
    intro a ha hb
    rw [List.mem_singleton] at hb
    exact hmem (hb ▸ ha)

theorem closeLatest_eq_of_allClosed {incs : List Incident} {T : Nat}
    (h : allClosed incs) : closeLatest incs T = incs := by
  unfold closeLatest
  cases hl : latestIncident incs with
  | none => rfl
  | some i =>
    dsimp only
    rw [if_neg (h i (latestIncident_mem hl))]

theorem length_filter_open_le_one {l : List Incident} (d : Nat)
    (hnd : (l.map (·.start)).Nodup)
    (h : ∀ i ∈ l, i.endTime = none → i.start = d) :
    (l.filter (fun i => i.endTime = none)).length ≤ 1 := by
  induction l with
  | nil => simp
  | cons a tl ih =>
    rw [List.map_cons, List.nodup_cons] at hnd
    by_cases ha : a.endTime = none
    · have had : a.start = d := h a (List.mem_cons_self a tl) ha
      have htl : tl.filter (fun i => i.endTime = none) = [] := by
        rw [List.filter_eq_nil_iff]
        intro b hb
        simp only [decide_eq_true_eq]
        intro hbopen
        have hbd : b.start = d := h b (List.mem_cons_of_mem a hb) hbopen
        exact hnd.1 (List.mem_map.mpr ⟨b, hb, by rw [hbd, had]⟩)
      rw [List.filter_cons, if_pos (by simpa using ha), htl]
      simp
    · rw [List.filter_cons, if_neg (by simpa using ha)]
      exact ih hnd.2 (fun i hi => h i (List.mem_cons_of_mem a hi))

theorem closeLatest_start_le {incs : List Incident} {T lastT : Nat}
    (hle : ∀ i ∈ incs, i.start ≤ lastT) :
    ∀ j ∈ closeLatest incs T, j.start ≤ lastT := by
  intro j hj
  have hmem : j.start ∈ (closeLatest incs T).map (·.start) := List.mem_map.mpr ⟨j, hj, rfl⟩
  rw [closeLatest_map_start] at hmem
  obtain ⟨i, hi, his⟩ := List.mem_map.mp hmem
  exact his ▸ hle i hi

/-- Behaviour of the close step when the store satisfies the down-state
invariant clause for key `d`: afterwards every incident is closed, closures
respect `end ≥ start`, and previously closed incidents survive unchanged. -/
theorem closeLatest_spec {incs : List Incident} {T d lastT : Nat}
    (hle : ∀ i ∈ incs, i.start ≤ lastT)
    (hes : ∀ i ∈ incs, ∀ e, i.endTime = some e → i.start ≤ e)
    (hclause : ∀ i ∈ incs, (i.endTime = none → i.start = d) ∧
      (i.start = d → i.endTime = none) ∧ i.start ≤ d)
    (hT : lastT < T) :
    allClosed (closeLatest incs T) ∧
    (∀ j ∈ closeLatest incs T, ∀ e, j.endTime = some e → j.start ≤ e) ∧
    (∀ j ∈ incs, ∀ e, j.endTime = some e → j ∈ closeLatest incs T) := by
  unfold closeLatest
  cases hl : latestIncident incs with
  | none =>
    have hnil := latestIncident_eq_none hl
    subst hnil
    exact ⟨fun i hi => absurd hi (by simp), fun j hj => absurd hj (by simp),
      fun j hj => absurd hj (by simp)⟩
  | some L =>
    dsimp only
    by_cases hLe : L.endTime = none
    · rw [if_pos hLe]
      have hLd : L.start = d := (hclause L (latestIncident_mem hl)).1 hLe
      refine ⟨?_, ?_, ?_⟩
      · intro j' hj'
        obtain ⟨j, hj, hjeq⟩ := List.mem_map.mp hj'
        by_cases hs : (j.start == L.start) = true
        · rw [if_pos hs] at hjeq
          rw [← hjeq]
          simp
        · rw [if_neg hs] at hjeq
          rw [← hjeq]
          intro hopen
          have hjd := (hclause j hj).1 hopen
          exact hs (by simp [hjd, hLd])
      · intro j' hj' e he
        obtain ⟨j, hj, hjeq⟩ := List.mem_map.mp hj'
        by_cases hs : (j.start == L.start) = true
        · rw [if_pos hs] at hjeq
          rw [← hjeq] at he ⊢
          have heT : T = e := by simpa using he
          have : j.start ≤ lastT := hle j hj
          show j.start ≤ e
          omega
        · rw [if_neg hs] at hjeq
          rw [← hjeq] at he ⊢
          exact hes j hj e he
      · intro j hj e he
        have hs : (j.start == L.start) = false := by
          rw [beq_eq_false_iff_ne]
          intro hc
          have hopen : j.endTime = none := (hclause j hj).2.1 (hc.trans hLd)
          rw [hopen] at he
          cases he
        exact List.mem_map.mpr ⟨j, hj, by rw [if_neg (by simp [hs])]⟩
    · rw [if_neg hLe]
      have hall : allClosed incs := by
        intro j hj hopen
        have hjd := (hclause j hj).1 hopen
        have h1 : L.start ≤ d := (hclause L (latestIncident_mem hl)).2.2
        have h2 : d ≤ L.start := hjd ▸ latestIncident_max hl j hj
        exact hLe ((hclause L (latestIncident_mem hl)).2.1 (le_antisymm h1 h2))
      exact ⟨hall, hes, fun j hj e _ => hj⟩

/-! ### C4: incident lifecycle (amended) -/

/-- C4 (amended): per aggregator tick, provided the monitor does not
transition from down to degraded, the incident-store invariant is preserved:
when status is down an incident keyed by the (positive) `downSince` is
upserted with the current error and down regions; when status is up the most
recent incident, if open, is closed with `end = T ≥ start`; previously closed
incidents survive unchanged (closure is one-way); and at most one incident is
open afterwards. -/
theorem C4_incident_lifecycle_amended (m : Monitor) (cfg : NotifConfig)
    (results : List CheckResultItem) (prev : Option MonitorStateRec)
    (incs : List Incident) (lastT T : Nat)
    (hInv : IncInv prev incs lastT) (hT : lastT < T)
    (hProv : ¬ ((prev.map (·.status)).getD MStatus.up = MStatus.down ∧
        (tickAgg m results).status = MStatus.degraded)) :
    IncInv (some (tickStored m cfg results prev T)) (tickIncs m results prev incs T) T ∧
    ((tickAgg m results).status = MStatus.down →
      ∃ s, (tickNewState m results prev T).downSince = some s ∧ 0 < s ∧ s ≤ T ∧
        tickIncs m results prev incs T =
          putIncident incs ⟨s, jsOrStr (tickAgg m results).error "Unknown error",
            downRegionsOf (tickAgg m results), none, incidentTTL T⟩) ∧
    ((tickAgg m results).status = MStatus.up →
      tickIncs m results prev incs T = closeLatest incs T) ∧
    (∀ i ∈ incs, ∀ e, i.endTime = some e → i ∈ tickIncs m results prev incs T) ∧
    ((tickIncs m results prev incs T).filter (fun i => i.endTime = none)).length ≤ 1 := by
  obtain ⟨hnd, hle, hes, hdown, hother⟩ := hInv
  have hsts : (tickStored m cfg results prev T).status = (tickAgg m results).status := rfl
  have hti : tickIncs m results prev incs T =
      updateIncident incs (tickAgg m results).status (tickAgg m results).error
        (tickNewState m results prev T).downSince (downRegionsOf (tickAgg m results)) T := rfl
  have hT0 : 0 < T := Nat.lt_of_le_of_lt (Nat.zero_le _) hT
  cases hstat : (tickAgg m results).status with
  | down =>
    rw [hstat] at hsts hti
    by_cases hpd : (prev.map (·.status)).getD MStatus.up = MStatus.down
    · obtain ⟨d, hd, hd0, hdle, hclause⟩ := hdown hpd
      have hD1 : (tickNewState m results prev T).downSince = some d := by
        rw [tickNewState_downSince, hstat, if_neg (by simp [hpd]), if_neg (by simp)]
        exact hd
      have hdne : d ≠ 0 := Nat.pos_iff_ne_zero.mp hd0
      have hguard : MStatus.down = MStatus.down ∧
          ¬ jsFalsy ((tickNewState m results prev T).downSince) = true := by
        refine ⟨rfl, ?_⟩
        rw [hD1]
        simp [jsFalsy, hdne]
      have hjsor : jsOr ((tickNewState m results prev T).downSince) 0 = d := by
        rw [hD1]
        simp [jsOr, hdne]
      have hput : tickIncs m results prev incs T =
          putIncident incs ⟨d, jsOrStr (tickAgg m results).error "Unknown error",
            downRegionsOf (tickAgg m results), none, incidentTTL T⟩ := by
        rw [hti]
        unfold updateIncident
        rw [if_pos hguard, hjsor]
      refine ⟨⟨?_, ?_, ?_, ?_, ?_⟩, ?_, ?_, ?_, ?_⟩
      · rw [hput]
        exact putIncident_nodup hnd
      · rw [hput]
        intro j hj
        rcases mem_putIncident hj with rfl | ⟨hjm, _⟩
        · exact le_trans hdle (le_of_lt hT)
        · exact le_trans (hle j hjm) (le_of_lt hT)
      · rw [hput]
        intro j hj e he
        rcases mem_putIncident hj with rfl | ⟨hjm, _⟩
        · exact absurd he (by simp)
        · exact hes j hjm e he
      · intro _
        refine ⟨d, hD1, hd0, le_trans hdle (le_of_lt hT), ?_⟩
        rw [hput]
        intro j hj
        rcases mem_putIncident hj with rfl | ⟨hjm, hjs⟩
        · exact ⟨fun _ => rfl, fun _ => rfl, le_refl d⟩
        · exact ⟨(hclause j hjm).1, fun hc => absurd hc hjs, (hclause j hjm).2.2⟩
      · intro hcon
        exact absurd hsts hcon
      · intro _
        exact ⟨d, hD1, hd0, le_trans hdle (le_of_lt hT), hput⟩
      · intro h3
        exact absurd h3 (by simp)
      · intro j hj e he
        rw [hput]
        refine mem_putIncident_of_ne hj ?_
        intro hc
        have hopen := (hclause j hj).2.1 hc
        rw [hopen] at he
        cases he
      · rw [hput]
        refine length_filter_open_le_one d (putIncident_nodup hnd) ?_
        intro j hj hopen
        rcases mem_putIncident hj with rfl | ⟨hjm, _⟩
        · rfl
        · exact (hclause j hjm).1 hopen
    · have hclosed := hother hpd
      have hD1 : (tickNewState m results prev T).downSince = some T := by
        rw [tickNewState_downSince, hstat, if_pos ⟨rfl, hpd⟩]
      have hTne : T ≠ 0 := Nat.pos_iff_ne_zero.mp hT0
      have hguard : MStatus.down = MStatus.down ∧
          ¬ jsFalsy ((tickNewState m results prev T).downSince) = true := by
        refine ⟨rfl, ?_⟩
        rw [hD1]
        simp [jsFalsy, hTne]
      have hjsor : jsOr ((tickNewState m results prev T).downSince) 0 = T := by
        rw [hD1]
        simp [jsOr, hTne]
      have hput : tickIncs m results prev incs T =
          putIncident incs ⟨T, jsOrStr (tickAgg m results).error "Unknown error",
            downRegionsOf (tickAgg m results), none, incidentTTL T⟩ := by
        rw [hti]
        unfold updateIncident
        rw [if_pos hguard, hjsor]
      refine ⟨⟨?_, ?_, ?_, ?_, ?_⟩, ?_, ?_, ?_, ?_⟩
      · rw [hput]
        exact putIncident_nodup hnd
      · rw [hput]
        intro j hj
        rcases mem_putIncident hj with rfl | ⟨hjm, _⟩
        · exact le_refl T
        · exact le_trans (hle j hjm) (le_of_lt hT)
      · rw [hput]
        intro j hj e he
        rcases mem_putIncident hj with rfl | ⟨hjm, _⟩
        · exact absurd he (by simp)
        · exact hes j hjm e he
      · intro _
        refine ⟨T, hD1, hT0, le_refl T, ?_⟩
        rw [hput]
        intro j hj
        rcases mem_putIncident hj with rfl | ⟨hjm, hjs⟩
        · exact ⟨fun _ => rfl, fun _ => rfl, le_refl T⟩
        · exact ⟨fun hopen => absurd hopen (hclosed j hjm),
            fun hc => absurd hc hjs, le_trans (hle j hjm) (le_of_lt hT)⟩
      · intro hcon
        exact absurd hsts hcon
      · intro _
        exact ⟨T, hD1, hT0, le_refl T, hput⟩
      · intro h3
        exact absurd h3 (by simp)
      · intro j hj e he
        rw [hput]
        refine mem_putIncident_of_ne hj ?_
        intro hc
        have hc' : j.start = T := hc
        have hj' := hle j hj
        omega
      · rw [hput]
        refine length_filter_open_le_one T (putIncident_nodup hnd) ?_
        intro j hj hopen
        rcases mem_putIncident hj with rfl | ⟨hjm, _⟩
        · rfl
        · exact absurd hopen (hclosed j hjm)
  | up =>
    rw [hstat] at hsts hti
    have hup : tickIncs m results prev incs T = closeLatest incs T := by
      rw [hti]
      unfold updateIncident
      rw [if_neg (by simp), if_pos rfl]
    by_cases hpd : (prev.map (·.status)).getD MStatus.up = MStatus.down
    · obtain ⟨d, _, _, _, hclause⟩ := hdown hpd
      obtain ⟨hall, hends, hsurv⟩ := closeLatest_spec hle hes hclause hT
      refine ⟨⟨?_, ?_, ?_, ?_, ?_⟩, ?_, ?_, ?_, ?_⟩
      · rw [hup]
        have := closeLatest_map_start incs T
        rw [show ((closeLatest incs T).map (·.start)) = incs.map (·.start) from this]
        exact hnd
      · rw [hup]
        intro j hj
        exact le_trans (closeLatest_start_le hle j hj) (le_of_lt hT)
      · rw [hup]
        exact hends
      · intro hcon
        rw [show ((some (tickStored m cfg results prev T)).map (·.status)).getD MStatus.up =
            (tickStored m cfg results prev T).status from rfl, hsts] at hcon
        cases hcon
      · intro _
        rw [hup]
        exact hall
      · intro h2
        exact absurd h2 (by simp)
      · intro _
        exact hup
      · intro j hj e he
        rw [hup]
        exact hsurv j hj e he
      · rw [hup]
        have hnil : (closeLatest incs T).filter (fun i => i.endTime = none) = [] := by
          rw [List.filter_eq_nil_iff]
          intro a ha
          simpa using hall a ha
        rw [hnil]
        simp
    · have hclosed := hother hpd
      have hce : closeLatest incs T = incs := closeLatest_eq_of_allClosed hclosed
      refine ⟨⟨?_, ?_, ?_, ?_, ?_⟩, ?_, ?_, ?_, ?_⟩
      · rw [hup, hce]
        exact hnd
      · rw [hup, hce]
        intro j hj
        exact le_trans (hle j hj) (le_of_lt hT)
      · rw [hup, hce]
        exact hes
      · intro hcon
        rw [show ((some (tickStored m cfg results prev T)).map (·.status)).getD MStatus.up =
            (tickStored m cfg results prev T).status from rfl, hsts] at hcon
        cases hcon
      · intro _
        rw [hup, hce]
        exact hclosed
      · intro h2
        exact absurd h2 (by simp)
      · intro _
        exact hup
      · intro j hj e he
        rw [hup, hce]
        exact hj
      · rw [hup, hce]
        have hnil : incs.filter (fun i => i.endTime = none) = [] := by
          rw [List.filter_eq_nil_iff]
          intro a ha
          simpa using hclosed a ha
        rw [hnil]
        simp
  | degraded =>
    rw [hstat] at hsts hti
    by_cases hpd : (prev.map (·.status)).getD MStatus.up = MStatus.down
    · exact absurd ⟨hpd, hstat⟩ hProv
    · have hclosed := hother hpd
      have hdeg : tickIncs m results prev incs T = incs := by
        rw [hti]
        unfold updateIncident
        rw [if_neg (by simp), if_neg (by simp)]
      refine ⟨⟨?_, ?_, ?_, ?_, ?_⟩, ?_, ?_, ?_, ?_⟩
      · rw [hdeg]
        exact hnd
      · rw [hdeg]
        intro j hj
        exact le_trans (hle j hj) (le_of_lt hT)
      · rw [hdeg]
        exact hes
      · intro hcon
        rw [show ((some (tickStored m cfg results prev T)).map (·.status)).getD MStatus.up =
            (tickStored m cfg results prev T).status from rfl, hsts] at hcon
        cases hcon
      · intro _
        rw [hdeg]
        exact hclosed
      · intro h2
        exact absurd h2 (by simp)
      · intro h3
        exact absurd h3 (by simp)
      · intro j hj e he
        rw [hdeg]
        exact hj
      · rw [hdeg]
        have hnil : incs.filter (fun i => i.endTime = none) = [] := by
          rw [List.filter_eq_nil_iff]
          intro a ha
          simpa using hclosed a ha
        rw [hnil]
        simp

/-- Witness for `C4_incident_lifecycle_amended` at the first C4 tick: from an
empty store, a down tick upserts one open incident keyed by the tick time and
leaves at most one incident open. -/
theorem C4_incident_lifecycle_amended_witness :
    IncInv (some (tickStored mC4 {} (ticksC4.headD ⟨0, [], []⟩).results none 1000))
      (tickIncs mC4 (ticksC4.headD ⟨0, [], []⟩).results none [] 1000) 1000 ∧
    ((tickIncs mC4 (ticksC4.headD ⟨0, [], []⟩).results none [] 1000).filter
      (fun i => i.endTime = none)).length ≤ 1 :=
  ⟨(C4_incident_lifecycle_amended mC4 {} (ticksC4.headD ⟨0, [], []⟩).results none [] 0 1000
      (by simp [IncInv, allClosed]) (by decide) (by decide)).1,
   (C4_incident_lifecycle_amended mC4 {} (ticksC4.headD ⟨0, [], []⟩).results none [] 0 1000
      (by simp [IncInv, allClosed]) (by decide) (by decide)).2.2.2.2⟩

/-! ### C8: spike detection (amended) -/

/-- C8 (amended): for a monitor with spike detection enabled, the baseline is
`null` exactly when fewer than 6 latency samples lie in the baseline window
(and then the spike check is skipped entirely), and a spike notification
fires iff the baseline is some nonzero `b` with
`primary_latency > b × (1 + threshold_percent / 100)`; no grace period is
involved in the condition. -/
theorem C8_spike_amended (m : Monitor) (sd : SpikeDetection)
    (hsd : m.alerting.bind (·.spikeDetection) = some sd) (hen : sd.enabled = true)
    (latItems : List (Nat × Nat)) (results : List CheckResultItem) (T : Nat) :
    (getBaselineLatency latItems T sd.baselineWindowMinutes = none ↔
      (latItems.filter
        (fun p => decide (T - sd.baselineWindowMinutes * 60000 < p.1))).length < 6) ∧
    (getBaselineLatency latItems T sd.baselineWindowMinutes = none →
      spikeAt m latItems results T = false) ∧
    (spikeAt m latItems results T = true ↔
      ∃ b, getBaselineLatency latItems T sd.baselineWindowMinutes = some b ∧ b ≠ 0 ∧
        b * (1 + sd.thresholdPercent / 100) < ((tickAgg m results).primaryLatency : ℚ)) := by
  have hspike : spikeAt m latItems results T =
      (sd.enabled &&
        match getBaselineLatency latItems T sd.baselineWindowMinutes with
        | none => false
        | some b =>
          decide (b ≠ 0) &&
            decide (b * (1 + sd.thresholdPercent / 100) <
              ((tickAgg m results).primaryLatency : ℚ))) := by
    unfold spikeAt
    rw [hsd]
  refine ⟨?_, ?_, ?_⟩
  · unfold getBaselineLatency
    by_cases h6 : 5 < ((latItems.filter
        (fun p => decide (T - sd.baselineWindowMinutes * 60000 < p.1))).map (·.2)).length
    · rw [if_pos h6]
      rw [List.length_map] at h6
      constructor
      · intro h
        exfalso
        revert h
        dsimp only
        split <;> intro h <;> cases h
      · intro h
        omega
    · rw [if_neg h6]
      rw [List.length_map] at h6
      simp
      omega
  · intro hnone
    rw [hspike, hnone, hen]
    rfl
  · rw [hspike, hen, Bool.true_and]
    cases hb : getBaselineLatency latItems T sd.baselineWindowMinutes with
    | none =>
      simp [hb]
    | some b =>
      dsimp only
      rw [Bool.and_eq_true, decide_eq_true_iff, decide_eq_true_iff]
      constructor
      · rintro ⟨h1, h2⟩
        exact ⟨b, rfl, h1, h2⟩
      · rintro ⟨b2, hb2, h1, h2⟩
        obtain rfl : b = b2 := Option.some_inj.mp hb2
        exact ⟨h1, h2⟩

/-- Witness for `C8_spike_amended` at the enabled C8 monitor with an empty
latency store: fewer than 6 samples, so the baseline is `null` and no spike
fires. -/
theorem C8_spike_amended_witness :
    mC8.alerting.bind (·.spikeDetection) = some ⟨true, 200, 1⟩ ∧
    getBaselineLatency [] 100 1 = none ∧
    spikeAt mC8 [] resC8 100 = false :=
  ⟨rfl,
   (C8_spike_amended mC8 ⟨true, 200, 1⟩ rfl rfl [] resC8 100).1.mpr (by decide),
   (C8_spike_amended mC8 ⟨true, 200, 1⟩ rfl rfl [] resC8 100).2.1
     ((C8_spike_amended mC8 ⟨true, 200, 1⟩ rfl rfl [] resC8 100).1.mpr (by decide))⟩

end UptimeFlare
